import Mathlib

/-!
Shallow embedding of the neuralHFT core (src/neural) in Lean 4, used to
check the natural-language specification against the code.

Conventions of the embedding:
* Python floats are rationals (ℚ); `np.inf` is a distinguished value of
  an extended type `NpFloat` where it matters (construction guards).
* One-dimensional numpy arrays are lists of rationals; an array's shape
  is its length.
* A Python method that can raise and that mutates `self` before raising
  is a function returning the final state together with an optional
  exception (`State × Option PyErr`): mutations performed before the
  raise persist, exactly as in Python.
* A Python method that can raise but does not mutate observable state
  returns `Except PyErr β`.
-/

/-- Exceptions that the embedded code can raise. `assertionError` covers
the explicit `raise AssertionError` sites (the spec's InvalidConfig /
NotReady / ShapeMismatch taxonomy all map to it), `attributeError` covers
assignment to a property that has no setter, `typeErr` covers operations
on incompatible operand types (including a call with an unexpected
keyword argument), `indexError` covers out-of-range sequence indexing. -/
inductive PyErr where
  | assertionError
  | attributeError
  | typeErr
  | indexError
  deriving Repr, DecidableEq

/-- A numpy scalar that can be `np.inf` (used for `epsilon` and
`clip_threshold` of `RunningStatistics`, whose default is `np.inf`). -/
inductive NpFloat where
  | fin (q : ℚ)
  | inf
  deriving Repr, DecidableEq

/-- The comparison `x > 0` on an `NpFloat`; `np.inf > 0` is true. -/
def NpFloat.gtZero : NpFloat → Bool
  | .fin q => decide (0 < q)
  | .inf => true

/-- State of `neural.utils.base.RunningStatistics` (src/neural/utils/base.py,
lines 206-243). Fields mirror the attributes set in `__init__`:
`shape`, `_minimum`, `_maximum`, `_mean`, `M2`, `count` all start as
Python `None`, hence the `Option` types. The `_std` cache is omitted:
it is only written by the `std` getter and never read before being
written. Values are 1-D arrays modelled as `List ℚ`; a shape is a
length. -/
structure RunningStatistics where
  epsilon : NpFloat
  clip_threshold : NpFloat
  shape : Option ℕ
  minimum_ : Option (List ℚ)
  maximum_ : Option (List ℚ)
  mean_ : Option (List ℚ)
  M2 : Option (List ℚ)
  count : Option ℕ
  deriving Repr, DecidableEq

/-- `RunningStatistics.__init__` (base.py lines 206-243). The guards are
transcribed exactly as written in the source:
`if clip_threshold > 0: raise AssertionError(...)` and
`if epsilon > 0: raise AssertionError(...)` — i.e. the code raises when
the parameter IS positive (its own docstring and error messages say it
should raise when the parameter is ≤ 0). -/
def RunningStatistics.init (epsilon clip_threshold : NpFloat) :
    Except PyErr RunningStatistics :=
  if clip_threshold.gtZero then .error .assertionError
  else if epsilon.gtZero then .error .assertionError
  else .ok
    { epsilon := epsilon
      clip_threshold := clip_threshold
      shape := none
      minimum_ := none
      maximum_ := none
      mean_ := none
      M2 := none
      count := none }

/-- Truthiness of `not self.count`: true when `count` is `None` or `0`. -/
def RunningStatistics.countFalsy (s : RunningStatistics) : Bool :=
  match s.count with
  | none => true
  | some n => n == 0

/-- The `minimum` property getter (base.py lines 245-265): raises if
`not self.count`, otherwise returns the `_minimum` attribute (a Python
value that may be `None`). -/
def RunningStatistics.minimum (s : RunningStatistics) :
    Except PyErr (Option (List ℚ)) :=
  if s.countFalsy then .error .assertionError else .ok s.minimum_

/-- The `maximum` property getter (base.py lines 267-287): raises if
`not self.count`; otherwise the source returns `self._minimum` (line
287) — the `_minimum` attribute, not `_maximum`, exactly as written. -/
def RunningStatistics.maximum (s : RunningStatistics) :
    Except PyErr (Option (List ℚ)) :=
  if s.countFalsy then .error .assertionError else .ok s.minimum_

/-- The `mean` property getter (base.py lines 289-308). -/
def RunningStatistics.mean (s : RunningStatistics) :
    Except PyErr (Option (List ℚ)) :=
  if s.countFalsy then .error .assertionError else .ok s.mean_

/-- `initialize_statistics` (base.py lines 326-350): records the shape
and zero-initialises `_mean`, `M2` and `count`; the next statement,
`self.minimum = np.inf` (line 347), assigns to the read-only property
`minimum` (declared with `@property` and no setter), which raises
`AttributeError`; line 348 (`self.maximum = -np.inf`) is never reached.
The assignments made before the raise persist. -/
def RunningStatistics.initialize_statistics (s : RunningStatistics)
    (array : List ℚ) : RunningStatistics × Option PyErr :=
  ({ s with
      shape := some array.length
      mean_ := some (List.replicate array.length 0)
      M2 := some (List.replicate array.length 0)
      count := some 0 },
   some .attributeError)

/-- `update` (base.py lines 352-386), transcribed step by step:
* line 369: if `shape` is `None`, run `initialize_statistics` (which
  raises `AttributeError` after recording shape/mean/M2/count);
* line 372: if the recorded shape differs from the argument's shape,
  raise `AssertionError` (the ShapeMismatch case) without mutating;
* lines 377-381: the Welford step on `count`, `_mean`, `M2`;
* line 383: `self.minimum = np.minimum(self.minimum, array)` — the
  right-hand side reads the `minimum` property (count is now positive so
  it returns `_minimum`, which is still Python `None`); `np.minimum`
  applied to `None` raises `TypeError`; had it produced a value, the
  assignment itself would raise `AttributeError` (no setter). Either
  way the call raises after the Welford mutations have been applied.
`count = None` with a non-`None` shape is unreachable from `init`;
the embedding returns the Python behaviour of `None + 1` (TypeError). -/
def RunningStatistics.update (s : RunningStatistics) (array : List ℚ) :
    RunningStatistics × Option PyErr :=
  match s.shape with
  | none => s.initialize_statistics array
  | some shp =>
    if shp ≠ array.length then (s, some .assertionError)
    else
      match s.count, s.mean_, s.M2 with
      | some n, some m, some m2 =>
        let count' := n + 1
        let delta := List.zipWith (fun a b => a - b) array m
        let mean' := List.zipWith (fun a b => a + b) m
          (delta.map (fun d => d / (count' : ℚ)))
        let delta2 := List.zipWith (fun a b => a - b) array mean'
        let M2' := List.zipWith (fun a b => a + b) m2
          (List.zipWith (fun a b => a * b) delta delta2)
        let s' := { s with count := some count', mean_ := some mean', M2 := some M2' }
        match s'.minimum_ with
        | none => (s', some .typeErr)
        | some _ => (s', some .attributeError)
      | _, _, _ => (s, some .typeErr)

/-- Python negative indexing on a sequence: the expression written
`seq[-k]` in the source (k ≥ 1) returns the element `k` positions from
the end when `k ≤ len(seq)` and raises `IndexError` otherwise. -/
def pyNegIndex (l : List ℚ) (k : ℕ) : Except PyErr ℚ :=
  if h : 1 ≤ k ∧ k ≤ l.length then .ok (l.get ⟨l.length - k, by omega⟩)
  else .error .indexError

/-- `RewardGeneratorWrapper.reward` (src/neural/wrapper/reward.py lines
54-56): `reward = self.equity_history[-1] - self.equity_history[-2]`,
with Python evaluation order (`[-1]` first, then `[-2]`). The
`equity_history` argument is the metadata wrapper's equity history.
Modelled from the spec: the metadata wrapper (not under src/) keeps
`equity_history` as an append-only ordered sequence of floats, reset to
a single entry, so it is a `List ℚ` here. -/
def RewardGeneratorWrapper.reward (equity_history : List ℚ) :
    Except PyErr ℚ := do
  let a ← pyNegIndex equity_history 1
  let b ← pyNegIndex equity_history 2
  return a - b

/-- State of `RewardNormalizerWrapper` (reward.py lines 59-113). -/
structure RewardNormalizerWrapper where
  epsilon : NpFloat
  clip_threshold : NpFloat
  reward_statistics : RunningStatistics
  deriving Repr, DecidableEq

/-- `RewardNormalizerWrapper.__init__` (reward.py lines 77-113): stores
`epsilon` and `clip_threshold` (defaults `1e-8` and `np.inf`) and
constructs `RunningStatistics(epsilon=..., clip_threshold=...)`; any
exception from that constructor propagates. -/
def RewardNormalizerWrapper.init (epsilon clip_threshold : NpFloat) :
    Except PyErr RewardNormalizerWrapper := do
  let rs ← RunningStatistics.init epsilon clip_threshold
  return { epsilon := epsilon, clip_threshold := clip_threshold,
           reward_statistics := rs }

/-- The fields the reward wrappers read from the margin-account metadata
wrapper. Modelled from the spec: the metadata wrapper itself is not
under src/; per the spec's Account State, `day` is the current simulated
day from the trading calendar, `cash` is signed, `positions` are
per-asset position values (quantity × price, signed) and
`asset_quantities` are signed per-asset quantities. -/
structure MarginAccountMetaData where
  day : ℤ
  cash : ℚ
  positions : List ℚ
  asset_quantities : List ℚ
  deriving Repr, DecidableEq

/-- State of `LiabilityInterstRewardWrapper` (reward.py lines 136-250);
`previous_day` starts as Python `None` and is set on `reset`. The class
name keeps the source's spelling. -/
structure LiabilityInterstRewardWrapper where
  interest_rate : ℚ
  previous_day : Option ℤ
  deriving Repr, DecidableEq

/-- The `daily_interest_rate` property (reward.py lines 181-191). -/
def LiabilityInterstRewardWrapper.daily_interest_rate
    (s : LiabilityInterstRewardWrapper) : ℚ :=
  s.interest_rate / 360

/-- `reset` (reward.py lines 193-204): records the metadata wrapper's
current day as `previous_day`. -/
def LiabilityInterstRewardWrapper.reset (s : LiabilityInterstRewardWrapper)
    (m : MarginAccountMetaData) : LiabilityInterstRewardWrapper :=
  { s with previous_day := some m.day }

/-- `compute_interest` (reward.py lines 229-250):
`cash_debt = abs(min(cash, 0))`; `asset_debt` sums the position values
over `zip(positions, asset_quantities)` for entries whose quantity is
negative; `debt_interest = (cash_debt + asset_debt) * daily_interest_rate`. -/
def LiabilityInterstRewardWrapper.compute_interest
    (s : LiabilityInterstRewardWrapper) (m : MarginAccountMetaData) : ℚ :=
  let cash_debt := |min m.cash 0|
  let asset_debt :=
    (((m.positions.zip m.asset_quantities).filter
        (fun pq => decide (pq.2 < 0))).map Prod.fst).sum
  (cash_debt + asset_debt) * s.daily_interest_rate

/-- `LiabilityInterstRewardWrapper.reward` (reward.py lines 206-227):
if the metadata wrapper's current day differs from `previous_day`,
subtract `compute_interest` from the reward and record the new day;
otherwise return the reward unchanged. -/
def LiabilityInterstRewardWrapper.reward (s : LiabilityInterstRewardWrapper)
    (m : MarginAccountMetaData) (reward : ℚ) :
    LiabilityInterstRewardWrapper × ℚ :=
  if some m.day ≠ s.previous_day then
    ({ s with previous_day := some m.day }, reward - s.compute_interest m)
  else
    (s, reward)

/-- A `collections.deque(maxlen=n)` append: add at the right, dropping
from the left when the length would exceed `maxlen`. -/
def dequeAppend {α : Type} (maxlen : ℕ) (b : List α) (x : α) : List α :=
  let grown := b ++ [x]
  if maxlen < grown.length then grown.drop (grown.length - maxlen) else grown

/-- `neural.utils.base.FillDeque` (base.py lines 17-119): a deque with
maximum length `buffer_size`. -/
structure FillDeque (α : Type) where
  buffer_size : ℕ
  buffer : List α
  deriving Repr, DecidableEq

/-- `FillDeque.__init__` (base.py lines 52-64): empty buffer of the
given maximum size. -/
def FillDeque.init (α : Type) (buffer_size : ℕ) : FillDeque α :=
  { buffer_size := buffer_size, buffer := [] }

/-- `FillDeque.append` (base.py lines 66-82): if the buffer is empty,
run `for _ in range(buffer_size): self.buffer.append(item)` on the
maxlen-bounded deque; otherwise a single bounded append. -/
def FillDeque.append {α : Type} (d : FillDeque α) (item : α) : FillDeque α :=
  if d.buffer.isEmpty then
    { d with buffer := ((List.range d.buffer_size).foldl
        (fun b _ => dequeAppend d.buffer_size b item) d.buffer) }
  else
    { d with buffer := dequeAppend d.buffer_size d.buffer item }

/-- `FillDeque.clear` (base.py lines 113-119). -/
def FillDeque.clear {α : Type} (d : FillDeque α) : FillDeque α :=
  { d with buffer := [] }

/-- An operation on a `FillDeque`: one of the two mutators the class
exposes. -/
inductive FillOp (α : Type) where
  | append (x : α)
  | clear

/-- Run a sequence of `append`/`clear` operations on a `FillDeque`. -/
def FillDeque.exec {α : Type} (d : FillDeque α) : List (FillOp α) → FillDeque α
  | [] => d
  | .append x :: ops => (d.append x).exec ops
  | .clear :: ops => d.clear.exec ops

/-- The wrapper classes that `MarginAccountPipe` (src/neural/meta/pipe.py)
can apply to an environment, one tag per class imported there. Modelled
from the spec: the wrapper classes from `neural.wrapper.base`,
`neural.wrapper.action` and `neural.wrapper.observation` are not under
src/, so each is an opaque stage tag; per the spec, constructing a
wrapper around an environment wraps it with that stage. An environment
is the list of stage tags applied to it so far, innermost first. -/
inductive Wrap where
  | marginAccountMetaData
  | consoleTearsheetRender
  | flattenToNumpyObservation
  | observationBuffer
  | observationStacker
  | observationNormalizer
  | minTradeSize
  | integerAssetQuantity
  | positionClose
  | initialMargin
  | excessMargin
  | shorting
  | equityBasedUniformActionInterpreter
  | actionClipper
  | rewardGenerator
  | rewardNormalizer
  deriving Repr, DecidableEq

/-- `RewardPipe.pipe` (pipe.py lines 62-66): wraps the environment in
`RewardGeneratorWrapper`, then calls
`RewardNormalizerWrapper(env, reward_statistics=..., track_statistics=...)`.
`RewardNormalizerWrapper.__init__` (reward.py lines 77-113) accepts only
`env`, `epsilon` and `clip_threshold`, so the call raises `TypeError`
(unexpected keyword argument) for every environment. (Had the keywords
been accepted, the constructor would still raise: it builds
`RunningStatistics(epsilon=1e-8, clip_threshold=np.inf)`, which raises
`AssertionError` — see `RunningStatistics.init`. And had it returned,
`RewardPipe.pipe` has no `return` statement, so it would return `None`.)
The result is the environment as built so far plus the exception. -/
def RewardPipe.pipe (env : List Wrap) : List Wrap × Option PyErr :=
  let env1 := env ++ [Wrap.rewardGenerator]
  (env1, some .typeErr)

/-- `ObservationPipe.pipe` (pipe.py lines 87-97): flatten, buffer,
stacker, observation normalizer, in that order. -/
def ObservationPipe.pipe (env : List Wrap) : List Wrap :=
  let env1 := env ++ [Wrap.flattenToNumpyObservation]
  let env2 := env1 ++ [Wrap.observationBuffer]
  let env3 := env2 ++ [Wrap.observationStacker]
  env3 ++ [Wrap.observationNormalizer]

/-- `MarginAccountPipe.pipe` (pipe.py lines 156-195), stage by stage in
source order: metadata wrapper, render wrapper, the observation pipe,
then `self.min_trade`, `self.integer_sizing`, `self.position_close`,
`self.initial_margin`, `self.excess_margin`, `self.shorting`,
`self.action_interpreter`, and finally `self.reward_pipe(...).pipe(env)`
whose exception propagates. `self.clip` (`ActionClipperWrapper`,
assigned in `__init__` at pipe.py line 148) is never applied. -/
def MarginAccountPipe.pipe (env : List Wrap) : List Wrap × Option PyErr :=
  let env1 := env ++ [Wrap.marginAccountMetaData]
  let env2 := env1 ++ [Wrap.consoleTearsheetRender]
  let env3 := ObservationPipe.pipe env2
  let env4 := env3 ++ [Wrap.minTradeSize]
  let env5 := env4 ++ [Wrap.integerAssetQuantity]
  let env6 := env5 ++ [Wrap.positionClose]
  let env7 := env6 ++ [Wrap.initialMargin]
  let env8 := env7 ++ [Wrap.excessMargin]
  let env9 := env8 ++ [Wrap.shorting]
  let env10 := env9 ++ [Wrap.equityBasedUniformActionInterpreter]
  RewardPipe.pipe env10

/-- The stage tags `MarginAccountPipe.pipe` wraps around its input, in
application order, up to the point where the `TypeError` is raised. -/
def MarginAccountPipe.stages_applied : List Wrap :=
  [Wrap.marginAccountMetaData, Wrap.consoleTearsheetRender,
   Wrap.flattenToNumpyObservation, Wrap.observationBuffer,
   Wrap.observationStacker, Wrap.observationNormalizer,
   Wrap.minTradeSize, Wrap.integerAssetQuantity, Wrap.positionClose,
   Wrap.initialMargin, Wrap.excessMargin, Wrap.shorting,
   Wrap.equityBasedUniformActionInterpreter, Wrap.rewardGenerator]

/-- The mutable per-worker pipeline state that cloning must isolate
(spec §5): every Statistics Engine's running accumulators and the Fill
Buffer's contents. -/
structure WorkerPipe where
  observation_statistics : RunningStatistics
  reward_statistics : RunningStatistics
  observation_buffer : FillDeque (List ℚ)
  deriving Repr, DecidableEq

/-- `AbstractTrainer._get_market_env` (src/neural/train/base.py lines
410-412): `async_env_pipes = [copy.deepcopy(self.agent.pipe) for _ in
range(self.n_async_envs)]`. `copy.deepcopy` yields a fully independent
owned copy, so each worker's pipe is its own list entry holding its own
value; no entry aliases another. -/
def deepcopy_pipes (p : WorkerPipe) (n : ℕ) : List WorkerPipe :=
  List.replicate n p

/-- Perform one Statistics Engine update through the clone at index `i`
in the list of worker pipes: only entry `i` is replaced (its
`reward_statistics` advanced by `RunningStatistics.update`, whose state
mutations persist whether or not the call raises); every other entry is
left as is. -/
def update_clone_statistics (pipes : List WorkerPipe) (i : ℕ)
    (x : List ℚ) : List WorkerPipe :=
  match pipes[i]? with
  | none => pipes
  | some p =>
    pipes.set i { p with reward_statistics := (p.reward_statistics.update x).1 }

/-- Run a sequence of Statistics Engine updates, all through the clone
at index `i`. -/
def update_clone_statistics_seq (pipes : List WorkerPipe) (i : ℕ)
    (xs : List (List ℚ)) : List WorkerPipe :=
  xs.foldl (fun h x => update_clone_statistics h i x) pipes

/-- The state produced by `RunningStatistics(-1, -1)` — with both guards
inverted (see `RunningStatistics.init`), non-positive `epsilon` and
`clip_threshold` are the only parameters the constructor accepts, so
this is the shape of every constructible instance. -/
def rsConstructible : RunningStatistics :=
  { epsilon := .fin (-1), clip_threshold := .fin (-1), shape := none,
    minimum_ := none, maximum_ := none, mean_ := none, M2 := none,
    count := none }

/-- A concrete worker pipeline used to instantiate the clone-isolation
theorem. -/
def workerPipeExample : WorkerPipe :=
  { observation_statistics := rsConstructible,
    reward_statistics := rsConstructible,
    observation_buffer := FillDeque.init (List ℚ) 3 }

theorem rsConstructible_from_init :
    RunningStatistics.init (.fin (-1)) (.fin (-1)) = .ok rsConstructible := rfl

theorem abs_min_zero_eq_max_neg (c : ℚ) : |min c 0| = max (-c) 0 := by
  rcases le_total c 0 with h | h
  · rw [min_eq_left h, abs_of_nonpos h, max_eq_left (neg_nonneg.mpr h)]
  · rw [min_eq_right h, abs_zero, max_eq_right (neg_nonpos.mpr h)]

theorem dequeAppend_length_of_full {α : Type} (n : ℕ) (b : List α) (x : α)
    (hb : b.length = n) : (dequeAppend n b x).length = n := by
  simp only [dequeAppend, List.length_append, List.length_cons,
    List.length_nil, hb]
  rw [if_pos (by omega), List.length_drop]
  simp [hb]

theorem dequeAppend_eq_of_lt {α : Type} (n : ℕ) (b : List α) (x : α)
    (hb : b.length < n) : dequeAppend n b x = b ++ [x] := by
  simp only [dequeAppend, List.length_append, List.length_cons,
    List.length_nil]
  rw [if_neg (by omega)]

theorem range_fold_fill {α : Type} (n : ℕ) (x : α) :
    ∀ k, k ≤ n →
      (List.range k).foldl (fun b _ => dequeAppend n b x) [] =
        List.replicate k x := by
  intro k
  induction k with
  | zero => intro _; simp
  | succ k ih =>
    intro hk
    rw [List.range_succ, List.foldl_append, ih (by omega)]
    simp only [List.foldl_cons, List.foldl_nil]
    rw [dequeAppend_eq_of_lt n _ x (by rw [List.length_replicate]; omega),
      List.replicate_succ' k x]

theorem fillDeque_append_empty {α : Type} (d : FillDeque α)
    (hd : d.buffer = []) (x : α) :
    (d.append x).buffer = List.replicate d.buffer_size x := by
  simp only [FillDeque.append, hd, List.isEmpty_nil, if_pos]
  exact range_fold_fill d.buffer_size x d.buffer_size le_rfl

theorem fillDeque_append_full {α : Type} (d : FillDeque α)
    (hne : d.buffer ≠ []) (hlen : d.buffer.length = d.buffer_size) (x : α) :
    (d.append x).buffer = d.buffer.drop 1 ++ [x] := by
  have hempty : d.buffer.isEmpty = false := by
    simpa [List.isEmpty_iff] using hne
  simp only [FillDeque.append, hempty, Bool.false_eq_true, if_false]
  simp only [dequeAppend, List.length_append, List.length_cons,
    List.length_nil, hlen]
  rw [if_pos (by omega)]
  have h1 : d.buffer_size + 1 - d.buffer_size = 1 := by omega
  rw [h1, List.drop_append_of_le_length (List.length_pos.mpr hne)]

theorem fillDeque_exec_inv {α : Type} (N : ℕ) :
    ∀ (ops : List (FillOp α)) (d : FillDeque α), d.buffer_size = N →
      (d.buffer = [] ∨ d.buffer.length = N) →
      ((d.exec ops).buffer_size = N ∧
        ((d.exec ops).buffer = [] ∨ (d.exec ops).buffer.length = N)) := by
  intro ops
  induction ops with
  | nil => intro d hsz hinv; exact ⟨hsz, hinv⟩
  | cons op ops ih =>
    intro d hsz hinv
    cases op with
    | append x =>
      refine ih (d.append x) ?_ ?_
      · rw [show (d.append x).buffer_size = d.buffer_size by
          unfold FillDeque.append; split <;> rfl]
        exact hsz
      · by_cases hne : d.buffer = []
        · right
          rw [fillDeque_append_empty d hne x, List.length_replicate, hsz]
        · rcases hinv with hempty | hfull
          · exact absurd hempty hne
          · right
            have hN1 : 1 ≤ N := hfull ▸ List.length_pos.mpr hne
            rw [fillDeque_append_full d hne (hfull.trans hsz.symm) x]
            simp only [List.length_append, List.length_drop,
              List.length_cons, List.length_nil, hfull]
            omega
    | clear => exact ih d.clear (by simp [FillDeque.clear, hsz]) (by simp [FillDeque.clear])

theorem update_clone_statistics_preserves_other (pipes : List WorkerPipe)
    (i j : ℕ) (x : List ℚ) (hij : i ≠ j) :
    (update_clone_statistics pipes i x)[j]? = pipes[j]? := by
  unfold update_clone_statistics
  cases pipes[i]? with
  | none => rfl
  | some p => exact List.getElem?_set_ne hij

theorem update_clone_statistics_seq_preserves_other (xs : List (List ℚ)) :
    ∀ (pipes : List WorkerPipe) (i j : ℕ), i ≠ j →
      (update_clone_statistics_seq pipes i xs)[j]? = pipes[j]? := by
  induction xs with
  | nil => intro pipes i j _; rfl
  | cons x xs ih =>
    intro pipes i j hij
    unfold update_clone_statistics_seq
    rw [List.foldl_cons]
    have := ih (update_clone_statistics pipes i x) i j hij
    unfold update_clone_statistics_seq at this
    rw [this, update_clone_statistics_preserves_other pipes i j x hij]

/-- C1: the claim says `RunningStatistics` construction fails iff
`epsilon <= 0` or `clip_threshold <= 0`, and in particular succeeds on
the defaults `epsilon = 1e-8`, `clip_threshold = np.inf`. The code does
the opposite: the default parameters are rejected with
`AssertionError`, a strictly positive finite pair is rejected as well,
and the constructor returns only when both parameters are non-positive. -/
theorem claim_C1_invalid_config_guards_inverted :
    RunningStatistics.init (.fin (1 / 100000000)) .inf =
      .error PyErr.assertionError ∧
    RunningStatistics.init (.fin (1 / 100000000)) (.fin 10) =
      .error PyErr.assertionError ∧
    RunningStatistics.init (.fin (-1)) (.fin (-1)) = .ok rsConstructible :=
  ⟨rfl, rfl, rfl⟩

/-- C2: the claim says every `update(x)` succeeds and maintains the
Welford running mean/M2 so that after `n` updates the mean is the
sample mean of all `n` values. In the code no `update` call ever
succeeds: the first call raises `AttributeError` inside
`initialize_statistics` (assignment to the setter-less `minimum`
property) and every subsequent call raises `TypeError` at the same
min/max bookkeeping line — after the Welford mutations have been
applied. Consequently after the calls `update([1]); update([2])` the
engine holds `count = 1` and `mean = [2]`: the first value is dropped
(it only initialised the shape), instead of `count = 2` and the sample
mean `[3/2]` the claim requires. -/
theorem claim_C2_welford_update_always_raises :
    (rsConstructible.update [1]).2 = some PyErr.attributeError ∧
    ((rsConstructible.update [1]).1.update [2]).2 = some PyErr.typeErr ∧
    ((rsConstructible.update [1]).1.update [2]).1.count = some 1 ∧
    ((rsConstructible.update [1]).1.update [2]).1.mean_ = some [2] := by
  refine ⟨rfl, rfl, rfl, ?_⟩
  simp [rsConstructible, RunningStatistics.update,
    RunningStatistics.initialize_statistics]

/-- C3 counterexample: on the single-entry history `[1000]` the claim
says the reward generator returns `0`; the code evaluates
`equity_history[-1] - equity_history[-2]` and `[-2]` raises
`IndexError` on a length-1 sequence. -/
theorem claim_C3_single_entry_counterexample :
    RewardGeneratorWrapper.reward [1000] = .error PyErr.indexError := rfl

/-- C3 amended: the reward generator returns
`equity_history[-1] - equity_history[-2]` whenever the history has at
least two entries, and raises `IndexError` (rather than returning 0)
whenever it has fewer than two. -/
theorem claim_C3_generator_amended :
    (∀ eh : List ℚ, ∀ h2 : 2 ≤ eh.length,
        RewardGeneratorWrapper.reward eh =
          .ok (eh.get ⟨eh.length - 1, by omega⟩ -
               eh.get ⟨eh.length - 2, by omega⟩)) ∧
    (∀ eh : List ℚ, eh.length < 2 →
        RewardGeneratorWrapper.reward eh = .error PyErr.indexError) := by
  constructor
  · intro eh h2
    unfold RewardGeneratorWrapper.reward pyNegIndex
    rw [dif_pos ⟨by omega, by omega⟩, dif_pos ⟨by omega, h2⟩]
    rfl
  · intro eh h
    unfold RewardGeneratorWrapper.reward pyNegIndex
    by_cases h1 : 1 ≤ eh.length
    · rw [dif_pos ⟨le_rfl, h1⟩, dif_neg (by omega)]
      rfl
    · rw [dif_neg (by omega)]
      rfl

/-- C3 amended, instantiated: `[1000, 1050]` yields `50`, `[1000]`
raises `IndexError`. -/
theorem claim_C3_generator_amended_witness :
    RewardGeneratorWrapper.reward [1000, 1050] = .ok 50 ∧
    RewardGeneratorWrapper.reward [1000] = .error PyErr.indexError := by
  constructor
  · have h := claim_C3_generator_amended.1 [1000, 1050] (by decide)
    rw [h]
    norm_num
  · exact claim_C3_generator_amended.2 [1000] (by decide)

/-- C4: for a Fill Buffer of capacity `N ≥ 1`: an append on an empty
buffer fills all `N` slots with the appended value; an append on a
non-empty (hence full) buffer pushes the value and evicts the oldest
element; over every sequence of append/clear operations the buffer is
empty or of length exactly `N`; and on capacity 3, `append 5` then
`append 7` yields `[5, 5, 7]`. -/
theorem claim_C4_fill_buffer_invariants (N : ℕ) (hN : 1 ≤ N) :
    (∀ (x : ℚ) (d : FillDeque ℚ), d.buffer_size = N → d.buffer = [] →
        (d.append x).buffer = List.replicate N x) ∧
    (∀ (x : ℚ) (d : FillDeque ℚ), d.buffer_size = N → d.buffer ≠ [] →
        d.buffer.length = N →
        (d.append x).buffer = d.buffer.drop 1 ++ [x]) ∧
    (∀ ops : List (FillOp ℚ),
        ((FillDeque.init ℚ N).exec ops).buffer = [] ∨
        ((FillDeque.init ℚ N).exec ops).buffer.length = N) ∧
    (((FillDeque.init ℚ 3).append 5).append 7).buffer = [5, 5, 7] := by
  refine ⟨?_, ?_, ?_, by decide⟩
  · intro x d hsz hd
    rw [fillDeque_append_empty d hd x, hsz]
  · intro x d hsz hne hlen
    exact fillDeque_append_full d hne (hlen.trans hsz.symm) x
  · intro ops
    exact (fillDeque_exec_inv N ops (FillDeque.init ℚ N) rfl (Or.inl rfl)).2

/-- C4, instantiated at capacity 3 with the operations `append 5`,
`append 7`. -/
theorem claim_C4_fill_buffer_invariants_witness :
    ((FillDeque.init ℚ 3).exec [FillOp.append 5, FillOp.append 7]).buffer = [] ∨
    ((FillDeque.init ℚ 3).exec [FillOp.append 5, FillOp.append 7]).buffer.length = 3 :=
  (claim_C4_fill_buffer_invariants 3 (by decide)).2.2.1
    [FillOp.append 5, FillOp.append 7]

/-- C5: the claim says `MarginAccountPipe.pipe` applies all eight
action-constraint stages ending with the final clip
(`ActionClipperWrapper`). In the code the clip wrapper is assigned in
`__init__` but never applied: the stages actually wrapped are
`stages_applied` (which does not contain `actionClipper`), and the call
then raises `TypeError` inside `RewardPipe.pipe`, so `pipe` never
returns an environment at all. -/
theorem claim_C5_pipe_missing_final_clip (env : List Wrap) :
    MarginAccountPipe.pipe env =
      (env ++ MarginAccountPipe.stages_applied, some PyErr.typeErr) ∧
    Wrap.actionClipper ∉ MarginAccountPipe.stages_applied := by
  refine ⟨?_, by decide⟩
  simp [MarginAccountPipe.pipe, ObservationPipe.pipe, RewardPipe.pipe,
    MarginAccountPipe.stages_applied]

/-- C6: the claim says after updates `[1]` then `[2]` the `maximum`
property returns the largest value seen (`2`) and `minimum` the
smallest (`1`). In the code the min/max bookkeeping line of `update`
raises before ever storing a value and the `maximum` getter returns the
`_minimum` attribute, so both getters return Python `None`. -/
theorem claim_C6_min_max_not_tracked :
    ((rsConstructible.update [1]).1.update [2]).1.maximum = .ok none ∧
    ((rsConstructible.update [1]).1.update [2]).1.minimum = .ok none :=
  ⟨rfl, rfl⟩

/-- C7: after a first `update` call of shape `S` (which records shape
`S`), a subsequent `update` whose value has a different shape fails
with the shape-mismatch `AssertionError` and returns with every field
of the state exactly as it was before the call. -/
theorem claim_C7_shape_mismatch_preserves_state (s0 : RunningStatistics)
    (h0 : s0.shape = none) (x0 x : List ℚ) (hx : x0.length ≠ x.length) :
    (s0.update x0).1.shape = some x0.length ∧
    (s0.update x0).1.update x =
      ((s0.update x0).1, some PyErr.assertionError) := by
  have h1 : (s0.update x0).1 =
      { s0 with
          shape := some x0.length
          mean_ := some (List.replicate x0.length 0)
          M2 := some (List.replicate x0.length 0)
          count := some 0 } := by
    unfold RunningStatistics.update
    rw [h0]
    rfl
  rw [h1]
  refine ⟨rfl, ?_⟩
  simp [RunningStatistics.update, hx]

/-- C7, instantiated: first update of shape 1, second update of
shape 2. -/
theorem claim_C7_shape_mismatch_preserves_state_witness :
    (rsConstructible.update [5]).1.shape = some 1 ∧
    (rsConstructible.update [5]).1.update [1, 2] =
      ((rsConstructible.update [5]).1, some PyErr.assertionError) :=
  claim_C7_shape_mismatch_preserves_state rsConstructible rfl [5] [1, 2]
    (by decide)

/-- C8: the liability-interest stage returns the reward unchanged when
the current simulated day equals the previously recorded day, and on a
day boundary subtracts exactly
`(cash_debt + asset_debt) * annual_rate / 360` where
`cash_debt = max(-cash, 0)` and `asset_debt` is the sum of position
values over assets with negative quantity. -/
theorem claim_C8_liability_interest (s : LiabilityInterstRewardWrapper)
    (m : MarginAccountMetaData) (r : ℚ) :
    (s.previous_day = some m.day → s.reward m r = (s, r)) ∧
    (s.previous_day ≠ some m.day →
      s.reward m r =
        ({ s with previous_day := some m.day },
          r - (max (-m.cash) 0 +
              (((m.positions.zip m.asset_quantities).filter
                  (fun pq => decide (pq.2 < 0))).map Prod.fst).sum) *
            (s.interest_rate / 360))) := by
  constructor
  · intro h
    unfold LiabilityInterstRewardWrapper.reward
    rw [if_neg (by simp [h])]
  · intro h
    unfold LiabilityInterstRewardWrapper.reward
    rw [if_pos (Ne.symm h)]
    simp only [LiabilityInterstRewardWrapper.compute_interest,
      LiabilityInterstRewardWrapper.daily_interest_rate,
      abs_min_zero_eq_max_neg]

/-- C8, instantiated: previous day 5, current day 6, annual rate 8%,
cash −100 (so cash debt 100), one short position of value −20; the
reward 10 becomes `10 - (100 + (-20)) * (8/100)/360 = 2246/225`. -/
theorem claim_C8_liability_interest_witness :
    LiabilityInterstRewardWrapper.reward ⟨8/100, some 5⟩
        ⟨6, -100, [50, -20], [5, -2]⟩ 10 =
      (⟨8/100, some 6⟩, 2246/225) := by
  have h := (claim_C8_liability_interest ⟨8/100, some 5⟩
      ⟨6, -100, [50, -20], [5, -2]⟩ 10).2 (by decide)
  rw [h]
  norm_num [List.zip, List.zipWith, max_def]

/-- C9: worker pipelines are cloned by `copy.deepcopy`, one disjoint
owned copy per worker; any sequence of Statistics Engine updates
performed through clone `i` leaves clone `j` (for `j ≠ i`) exactly
equal to the original pipeline state — every statistics field and the
Fill Buffer contents included. -/
theorem claim_C9_clone_isolation (p : WorkerPipe) (n i j : ℕ)
    (xs : List (List ℚ)) (hij : i ≠ j) (hj : j < n) :
    (update_clone_statistics_seq (deepcopy_pipes p n) i xs)[j]? = some p := by
  rw [update_clone_statistics_seq_preserves_other xs (deepcopy_pipes p n) i j hij]
  unfold deepcopy_pipes
  simp [List.getElem?_replicate, hj]

/-- C9, instantiated: two clones, updates `[1]` and `[2]` through clone
0, clone 1 still equals the original pipeline. -/
theorem claim_C9_clone_isolation_witness :
    (update_clone_statistics_seq (deepcopy_pipes workerPipeExample 2) 0
        [[1], [2]])[1]? = some workerPipeExample :=
  claim_C9_clone_isolation workerPipeExample 2 0 1 [[1], [2]]
    (by decide) (by decide)

/-- C10: the claim says the reward normalizer's `reward` path updates
its Statistics Engine before reading it, making NotReady unreachable
and the first emitted reward exactly 0. In the code
`RewardNormalizerWrapper.__init__` constructs
`RunningStatistics(epsilon=1e-8, clip_threshold=np.inf)`, whose
inverted guards reject those defaults with `AssertionError`, so the
wrapper cannot be constructed and its reward path never runs (and even
on a hand-built instance every `update` raises — see C2). -/
theorem claim_C10_normalizer_unconstructible :
    RewardNormalizerWrapper.init (.fin (1 / 100000000)) .inf =
      .error PyErr.assertionError := rfl
